import Mathlib

/-!
Shallow embedding of `colossalai/trainer/hooks/_checkpoint_hook.py`.

The two hooks, `SaveCheckpointHook.after_train_epoch` and
`LoadCheckpointHook.before_train`, are embedded as functions producing a
trace of observable events (resolver calls, the existence check, the save
and load primitives, log emission, the collective barrier) together with an
outcome: normal return or a propagated Python exception.

The external environment (distributed state, data-parallel rank, the path
resolvers `get_latest_checkpoint_path` / `get_checkpoint_path`,
`osp.exists`, and the results of the trainer's save / load primitives) is
passed in explicitly, following the source's external collaborators.
-/

/-- Observable events performed by the hooks, in program order. -/
inductive Event where
  | callLatest (dir : Option String)
  | callGetPath (dir : Option String) (epoch : Int)
  | checkExists (path : String)
  | callSave (path : Option String) (sfx : String)
  | callLoad (path : String) (finetune : Bool) (strict : Bool)
  | barrier
  | logInfo (msg : String)
deriving DecidableEq, Repr

/-- Python exceptions that can escape the hooks. -/
inductive PyError where
  | zeroDivision
  | fileNotFound (msg : String)
  | raised (msg : String)
deriving DecidableEq, Repr

/-- External collaborators of the hooks, as seen from one process. -/
structure Env where
  get_latest_checkpoint_path : Option String → String
  get_checkpoint_path : Option String → Int → String
  pathExists : String → Bool
  is_dp_rank_0 : Bool
  dist_is_active : Bool
  saveResult : Except String Unit
  loadResult : Except String Unit

/-- Constructor-time configuration of `SaveCheckpointHook`. -/
structure SaveCheckpointHook where
  interval : Int
  checkpoint_dir : Option String
  sfx : String
  priority : Int
deriving DecidableEq, Repr

/-- Constructor-time configuration of `LoadCheckpointHook`. -/
structure LoadCheckpointHook where
  checkpoint_dir : Option String
  epoch : Int
  finetune : Bool
  strict : Bool
  priority : Int
deriving DecidableEq, Repr

/-- How a Python f-string renders the optional checkpoint directory. -/
def optDirStr : Option String → String
  | some d => d
  | none => "None"

/-- The message logged by `after_train_epoch` after a successful save. -/
def saveLogMsg (epoch : Int) (dir : Option String) : String :=
  "checkpoint for epoch " ++ toString epoch ++ " is saved to " ++ optDirStr dir

/--
`SaveCheckpointHook.after_train_epoch`, embedded as a trace-plus-outcome
function of the current epoch and the environment.  Python's `%` on a zero
divisor raises `ZeroDivisionError`; on a nonzero divisor it is floor
modulus, i.e. `Int.fmod`.
-/
def after_train_epoch (h : SaveCheckpointHook) (cur_epoch : Int) (env : Env) :
    List Event × Except PyError Unit :=
  if h.interval = 0 then ([], .error .zeroDivision)
  else if cur_epoch.fmod h.interval = 0 then
    if env.is_dp_rank_0 then
      match env.saveResult with
      | .error e => ([.callSave h.checkpoint_dir h.sfx], .error (.raised e))
      | .ok _ =>
        let t := [Event.callSave h.checkpoint_dir h.sfx,
                  Event.logInfo (saveLogMsg cur_epoch h.checkpoint_dir)]
        if env.dist_is_active then (t ++ [.barrier], .ok ()) else (t, .ok ())
    else
      if env.dist_is_active then ([.barrier], .ok ()) else ([], .ok ())
  else ([], .ok ())

/-- The path-resolution step of `before_train`. -/
def resolvedPath (h : LoadCheckpointHook) (env : Env) : String :=
  if h.epoch = -1 then env.get_latest_checkpoint_path h.checkpoint_dir
  else env.get_checkpoint_path h.checkpoint_dir h.epoch

/-- The resolver-call event emitted by `before_train`. -/
def resolveEvent (h : LoadCheckpointHook) : Event :=
  if h.epoch = -1 then .callLatest h.checkpoint_dir
  else .callGetPath h.checkpoint_dir h.epoch

/--
`LoadCheckpointHook.before_train`, embedded as a trace-plus-outcome
function of the environment.
-/
def before_train (h : LoadCheckpointHook) (env : Env) :
    List Event × Except PyError Unit :=
  let path := resolvedPath h env
  let t0 := [resolveEvent h, Event.checkExists path]
  if env.pathExists path then
    match env.loadResult with
    | .error e => (t0 ++ [.callLoad path h.finetune h.strict], .error (.raised e))
    | .ok _ =>
      let t1 := t0 ++ [Event.callLoad path h.finetune h.strict,
                       Event.logInfo ("loaded checkpoint from " ++ path)]
      if env.dist_is_active then (t1 ++ [.barrier], .ok ()) else (t1, .ok ())
  else
    (t0, .error (.fileNotFound ("checkpoint is not found at " ++ path)))

/-- Recognises the two path-resolution events. -/
def isResolveEvent : Event → Bool
  | .callLatest _ => true
  | .callGetPath _ _ => true
  | _ => false

/-- Recognises a save-primitive invocation. -/
def isSaveEvent : Event → Bool
  | .callSave _ _ => true
  | _ => false

/-- Recognises a load-primitive invocation. -/
def isLoadEvent : Event → Bool
  | .callLoad _ _ _ => true
  | _ => false

/-- `a` occurs strictly before `b` in the trace `l`. -/
def precedes (a b : Event) (l : List Event) : Prop :=
  ∃ l1 l2 l3, l = l1 ++ a :: (l2 ++ b :: l3)

/-! ### Concrete hooks and environments used by the witnesses -/

/-- A saver configured with interval 2 on directory `/ckpt`. -/
def shW : SaveCheckpointHook := ⟨2, some "/ckpt", "", 0⟩

/-- A restorer configured with the latest-checkpoint sentinel `-1`. -/
def lhLatest : LoadCheckpointHook := ⟨some "/ckpt", -1, false, false, 10⟩

/-- A restorer configured with the explicit epoch 5. -/
def lhEpoch5 : LoadCheckpointHook := ⟨some "/ckpt", 5, false, false, 10⟩

/-- A restorer configured with the out-of-range negative epoch `-2`. -/
def lhEpochNeg2 : LoadCheckpointHook := ⟨some "/ckpt", -2, true, true, 10⟩

/-- Primary rank, distributed active, every path exists, primitives succeed. -/
def envOk : Env :=
  ⟨fun _ => "/ckpt/epoch_7.pt",
   fun _ e => "/ckpt/epoch_" ++ toString e ++ ".pt",
   fun _ => true, true, true, Except.ok (), Except.ok ()⟩

/-- Like `envOk` but no checkpoint file exists. -/
def envMissing : Env :=
  ⟨fun _ => "/ckpt/epoch_7.pt",
   fun _ e => "/ckpt/epoch_" ++ toString e ++ ".pt",
   fun _ => false, true, true, Except.ok (), Except.ok ()⟩

/-- Like `envOk` but this participant is a non-primary replica. -/
def envRank1 : Env :=
  ⟨fun _ => "/ckpt/epoch_7.pt",
   fun _ e => "/ckpt/epoch_" ++ toString e ++ ".pt",
   fun _ => true, false, true, Except.ok (), Except.ok ()⟩

/-- Like `envOk` but the save primitive fails. -/
def envSaveFail : Env :=
  ⟨fun _ => "/ckpt/epoch_7.pt",
   fun _ e => "/ckpt/epoch_" ++ toString e ++ ".pt",
   fun _ => true, true, true, Except.error "disk full", Except.ok ()⟩

/-- Like `envOk` but the load primitive fails. -/
def envLoadFail : Env :=
  ⟨fun _ => "/ckpt/epoch_7.pt",
   fun _ e => "/ckpt/epoch_" ++ toString e ++ ".pt",
   fun _ => true, true, true, Except.ok (), Except.error "corrupt checkpoint"⟩

/-! ### Claims -/

/--
Claim C1: with a positive interval, `after_train_epoch` treats epoch `E` as
a save point iff `E mod interval = 0`; when `E mod interval ≠ 0` it returns
at once with an empty trace (no save, no barrier), and at a save point the
primary replica invokes the save primitive.
-/
theorem save_fires_iff_interval_divides (h : SaveCheckpointHook) (E : Int) (env : Env)
    (hI : 0 < h.interval) :
    (E.fmod h.interval ≠ 0 → after_train_epoch h E env = ([], Except.ok ()))
  ∧ (E.fmod h.interval = 0 → env.is_dp_rank_0 = true →
       Event.callSave h.checkpoint_dir h.sfx ∈ (after_train_epoch h E env).1) := by
  have hI0 : h.interval ≠ 0 := by omega
  constructor
  · intro hm
    simp [after_train_epoch, hI0, hm]
  · intro hm hr
    cases hs : env.saveResult with
    | error e => simp [after_train_epoch, hI0, hm, hr, hs]
    | ok u =>
      cases hd : env.dist_is_active <;>
        simp [after_train_epoch, hI0, hm, hr, hs, hd]

/-- Witness for C1 at interval 2, epoch 4, primary rank. -/
theorem save_fires_iff_interval_divides_w :
    0 < shW.interval
  ∧ Event.callSave shW.checkpoint_dir shW.sfx ∈ (after_train_epoch shW 4 envOk).1 :=
  ⟨by decide,
   (save_fires_iff_interval_divides shW 4 envOk (by decide)).2 (by decide) rfl⟩

/--
Claim C2: each call of `before_train` invokes exactly one resolution query;
with epoch `-1` it is the latest-checkpoint query and never the exact-epoch
query, and with any other epoch it is the exact-epoch query and never the
latest-checkpoint query.
-/
theorem resolve_exactly_one (h : LoadCheckpointHook) (env : Env) :
    ((before_train h env).1.countP isResolveEvent = 1)
  ∧ (h.epoch = -1 →
       Event.callLatest h.checkpoint_dir ∈ (before_train h env).1
     ∧ ∀ d e, Event.callGetPath d e ∉ (before_train h env).1)
  ∧ (h.epoch ≠ -1 →
       Event.callGetPath h.checkpoint_dir h.epoch ∈ (before_train h env).1
     ∧ ∀ d, Event.callLatest d ∉ (before_train h env).1) := by
  by_cases hep : h.epoch = -1 <;>
    cases hpe : env.pathExists (resolvedPath h env) <;>
      cases hlr : env.loadResult <;>
        cases hd : env.dist_is_active <;>
          simp_all [before_train, resolveEvent, isResolveEvent,
            List.countP_cons, List.countP_nil]

/-- Witness for C2 with the latest sentinel. -/
theorem resolve_exactly_one_w :
    lhLatest.epoch = -1
  ∧ Event.callLatest lhLatest.checkpoint_dir ∈ (before_train lhLatest envOk).1 :=
  ⟨by decide, ((resolve_exactly_one lhLatest envOk).2.1 (by decide)).1⟩

/--
Claim C3: when the resolved path does not exist, `before_train` fails with
a file-not-found error whose message names that resolved path, and the load
primitive is never invoked.
-/
theorem notfound_fails_without_load (h : LoadCheckpointHook) (env : Env)
    (hne : env.pathExists (resolvedPath h env) = false) :
    (before_train h env).2 =
      Except.error (PyError.fileNotFound
        ("checkpoint is not found at " ++ resolvedPath h env))
  ∧ ∀ p f s, Event.callLoad p f s ∉ (before_train h env).1 := by
  by_cases hep : h.epoch = -1 <;>
    simp [before_train, resolveEvent, hne, hep]

/-- Witness for C3 at epoch 5 with the file absent. -/
theorem notfound_fails_without_load_w :
    envMissing.pathExists (resolvedPath lhEpoch5 envMissing) = false
  ∧ (before_train lhEpoch5 envMissing).2 =
      Except.error (PyError.fileNotFound
        ("checkpoint is not found at " ++ resolvedPath lhEpoch5 envMissing)) :=
  ⟨rfl, (notfound_fails_without_load lhEpoch5 envMissing rfl).1⟩

/--
Claim C4: at a save point, a non-primary replica never invokes the save
primitive, yet still enters the collective barrier when distributed
coordination is active.
-/
theorem nonprimary_skips_save_enters_barrier (h : SaveCheckpointHook) (E : Int)
    (env : Env) (hI0 : h.interval ≠ 0) (hm : E.fmod h.interval = 0)
    (hr : env.is_dp_rank_0 = false) :
    (∀ p s, Event.callSave p s ∉ (after_train_epoch h E env).1)
  ∧ (env.dist_is_active = true → Event.barrier ∈ (after_train_epoch h E env).1) := by
  cases hd : env.dist_is_active <;>
    simp [after_train_epoch, hI0, hm, hr, hd]

/-- Witness for C4: rank 1, save point reached, barrier entered. -/
theorem nonprimary_skips_save_enters_barrier_w :
    shW.interval ≠ 0 ∧ Int.fmod 4 shW.interval = 0
  ∧ envRank1.is_dp_rank_0 = false
  ∧ Event.barrier ∈ (after_train_epoch shW 4 envRank1).1 :=
  ⟨by decide, by decide, rfl,
   (nonprimary_skips_save_enters_barrier shW 4 envRank1 (by decide) (by decide)
     rfl).2 rfl⟩

/--
Claim C5: when the resolved path exists, the load primitive is invoked
exactly once, with the configured `finetune` and `strict` flags unchanged.
-/
theorem load_invoked_once_with_config (h : LoadCheckpointHook) (env : Env)
    (hex : env.pathExists (resolvedPath h env) = true) :
    ((before_train h env).1.countP isLoadEvent = 1)
  ∧ Event.callLoad (resolvedPath h env) h.finetune h.strict ∈ (before_train h env).1 := by
  by_cases hep : h.epoch = -1 <;>
    cases hlr : env.loadResult <;>
      cases hd : env.dist_is_active <;>
        simp [before_train, resolveEvent, hex, hep, hlr, hd, isLoadEvent,
          List.countP_cons, List.countP_nil]

/-- Witness for C5 with the latest sentinel and an existing file. -/
theorem load_invoked_once_with_config_w :
    envOk.pathExists (resolvedPath lhLatest envOk) = true
  ∧ Event.callLoad (resolvedPath lhLatest envOk) lhLatest.finetune lhLatest.strict
      ∈ (before_train lhLatest envOk).1 :=
  ⟨rfl, (load_invoked_once_with_config lhLatest envOk rfl).2⟩

/--
Claim C8: any configured epoch other than `-1` — in particular any epoch
strictly below `-1` such as `-2` — delegates to the exact-epoch query with
that epoch, never to the latest-checkpoint query.
-/
theorem negative_epoch_uses_exact_query (h : LoadCheckpointHook) (env : Env)
    (hlt : h.epoch < -1) :
    Event.callGetPath h.checkpoint_dir h.epoch ∈ (before_train h env).1
  ∧ ∀ d, Event.callLatest d ∉ (before_train h env).1 := by
  have hep : h.epoch ≠ -1 := by omega
  cases hpe : env.pathExists (resolvedPath h env) <;>
    cases hlr : env.loadResult <;>
      cases hd : env.dist_is_active <;>
        simp [before_train, resolveEvent, hep, hpe, hlr, hd]

/-- Witness for C8 at epoch `-2`. -/
theorem negative_epoch_uses_exact_query_w :
    lhEpochNeg2.epoch < -1
  ∧ Event.callGetPath lhEpochNeg2.checkpoint_dir lhEpochNeg2.epoch
      ∈ (before_train lhEpochNeg2 envOk).1 :=
  ⟨by decide, (negative_epoch_uses_exact_query lhEpochNeg2 envOk (by decide)).1⟩

/--
Claim C9: when `before_train` fails because the resolved path does not
exist, the post-load barrier is never entered.
-/
theorem notfound_never_reaches_barrier (h : LoadCheckpointHook) (env : Env)
    (hne : env.pathExists (resolvedPath h env) = false) :
    Event.barrier ∉ (before_train h env).1 := by
  by_cases hep : h.epoch = -1 <;>
    simp [before_train, resolveEvent, hne, hep]

/-- Witness for C9 at epoch 5 with the file absent. -/
theorem notfound_never_reaches_barrier_w :
    envMissing.pathExists (resolvedPath lhEpoch5 envMissing) = false
  ∧ Event.barrier ∉ (before_train lhEpoch5 envMissing).1 :=
  ⟨rfl, notfound_never_reaches_barrier lhEpoch5 envMissing rfl⟩

/-- A saver misconfigured with interval 0. -/
def shZero : SaveCheckpointHook := ⟨0, some "/ckpt", "", 0⟩

/--
Claim C6: within one process, the save primitive (at a selected epoch on
the primary rank) strictly precedes the post-save barrier, and in
`before_train` resolution strictly precedes the existence check, which
strictly precedes the load primitive, which strictly precedes the
post-load barrier.
-/
theorem hook_operation_order (sh : SaveCheckpointHook) (E : Int) (senv : Env)
    (lh : LoadCheckpointHook) (lenv : Env) :
    (sh.interval ≠ 0 → E.fmod sh.interval = 0 → senv.is_dp_rank_0 = true →
       senv.saveResult = Except.ok () → senv.dist_is_active = true →
       precedes (Event.callSave sh.checkpoint_dir sh.sfx) Event.barrier
         (after_train_epoch sh E senv).1)
  ∧ precedes (resolveEvent lh) (Event.checkExists (resolvedPath lh lenv))
      (before_train lh lenv).1
  ∧ (lenv.pathExists (resolvedPath lh lenv) = true →
       precedes (Event.checkExists (resolvedPath lh lenv))
         (Event.callLoad (resolvedPath lh lenv) lh.finetune lh.strict)
         (before_train lh lenv).1)
  ∧ (lenv.pathExists (resolvedPath lh lenv) = true →
       lenv.loadResult = Except.ok () → lenv.dist_is_active = true →
       precedes (Event.callLoad (resolvedPath lh lenv) lh.finetune lh.strict)
         Event.barrier (before_train lh lenv).1) := by
  refine ⟨?_, ?_, ?_, ?_⟩
  · intro h0 hm hr hs hd
    exact ⟨[], [Event.logInfo (saveLogMsg E sh.checkpoint_dir)], [],
      by simp [after_train_epoch, h0, hm, hr, hs, hd, precedes]⟩
  · cases hpe : lenv.pathExists (resolvedPath lh lenv)
    · exact ⟨[], [], [], by simp [before_train, hpe]⟩
    · cases hlr : lenv.loadResult with
      | error e =>
        exact ⟨[], [], [Event.callLoad (resolvedPath lh lenv) lh.finetune lh.strict],
          by simp [before_train, hpe, hlr]⟩
      | ok u =>
        cases hd : lenv.dist_is_active
        · exact ⟨[], [],
            [Event.callLoad (resolvedPath lh lenv) lh.finetune lh.strict,
             Event.logInfo ("loaded checkpoint from " ++ resolvedPath lh lenv)],
            by simp [before_train, hpe, hlr, hd]⟩
        · exact ⟨[], [],
            [Event.callLoad (resolvedPath lh lenv) lh.finetune lh.strict,
             Event.logInfo ("loaded checkpoint from " ++ resolvedPath lh lenv),
             Event.barrier],
            by simp [before_train, hpe, hlr, hd]⟩
  · intro hex
    cases hlr : lenv.loadResult with
    | error e =>
      exact ⟨[resolveEvent lh], [], [],
        by simp [before_train, hex, hlr]⟩
    | ok u =>
      cases hd : lenv.dist_is_active
      · exact ⟨[resolveEvent lh], [],
          [Event.logInfo ("loaded checkpoint from " ++ resolvedPath lh lenv)],
          by simp [before_train, hex, hlr, hd]⟩
      · exact ⟨[resolveEvent lh], [],
          [Event.logInfo ("loaded checkpoint from " ++ resolvedPath lh lenv),
           Event.barrier],
          by simp [before_train, hex, hlr, hd]⟩
  · intro hex hok hd
    exact ⟨[resolveEvent lh, Event.checkExists (resolvedPath lh lenv)],
      [Event.logInfo ("loaded checkpoint from " ++ resolvedPath lh lenv)], [],
      by simp [before_train, hex, hok, hd]⟩

/-- Witness for C6: save precedes barrier and load precedes barrier on concrete runs. -/
theorem hook_operation_order_w :
    precedes (Event.callSave shW.checkpoint_dir shW.sfx) Event.barrier
      (after_train_epoch shW 4 envOk).1
  ∧ precedes (Event.callLoad (resolvedPath lhLatest envOk) lhLatest.finetune lhLatest.strict)
      Event.barrier (before_train lhLatest envOk).1 :=
  ⟨(hook_operation_order shW 4 envOk lhLatest envOk).1 (by decide) (by decide) rfl rfl rfl,
   (hook_operation_order shW 4 envOk lhLatest envOk).2.2.2 rfl rfl rfl⟩

/--
Claim C7: neither hook retries: a failing save or load primitive is
invoked exactly once and its failure propagates unchanged to the caller.
-/
theorem primitive_failure_propagates_no_retry (sh : SaveCheckpointHook) (E : Int)
    (senv : Env) (lh : LoadCheckpointHook) (lenv : Env) :
    (∀ e, sh.interval ≠ 0 → E.fmod sh.interval = 0 → senv.is_dp_rank_0 = true →
       senv.saveResult = Except.error e →
       (after_train_epoch sh E senv).2 = Except.error (PyError.raised e)
     ∧ (after_train_epoch sh E senv).1.countP isSaveEvent = 1)
  ∧ (∀ e, lenv.pathExists (resolvedPath lh lenv) = true →
       lenv.loadResult = Except.error e →
       (before_train lh lenv).2 = Except.error (PyError.raised e)
     ∧ (before_train lh lenv).1.countP isLoadEvent = 1) := by
  constructor
  · intro e h0 hm hr hs
    simp [after_train_epoch, h0, hm, hr, hs, isSaveEvent,
      List.countP_cons, List.countP_nil]
  · intro e hex hlr
    by_cases hep : lh.epoch = -1 <;>
      simp [before_train, resolveEvent, hex, hlr, hep, isLoadEvent,
        List.countP_cons, List.countP_nil]

/-- Witness for C7: a failing save and a failing load on concrete runs. -/
theorem primitive_failure_propagates_no_retry_w :
    ((after_train_epoch shW 4 envSaveFail).2 = Except.error (PyError.raised "disk full")
     ∧ (after_train_epoch shW 4 envSaveFail).1.countP isSaveEvent = 1)
  ∧ ((before_train lhLatest envLoadFail).2
        = Except.error (PyError.raised "corrupt checkpoint")
     ∧ (before_train lhLatest envLoadFail).1.countP isLoadEvent = 1) :=
  ⟨(primitive_failure_propagates_no_retry shW 4 envSaveFail lhLatest envLoadFail).1
      "disk full" (by decide) (by decide) rfl rfl,
   (primitive_failure_propagates_no_retry shW 4 envSaveFail lhLatest envLoadFail).2
      "corrupt checkpoint" rfl rfl⟩

/--
Claim C10: with a positive interval the modulo in `after_train_epoch` is
total and the hook never fails with a division-by-zero error, while with
interval 0 the very first step fails with the division-by-zero error.
-/
theorem modulo_needs_positive_interval (h : SaveCheckpointHook) (E : Int) (env : Env) :
    (0 < h.interval →
       (after_train_epoch h E env).2 ≠ Except.error PyError.zeroDivision)
  ∧ (h.interval = 0 →
       after_train_epoch h E env = ([], Except.error PyError.zeroDivision)) := by
  constructor
  · intro hI
    have h0 : h.interval ≠ 0 := by omega
    by_cases hm : E.fmod h.interval = 0
    · cases hr : env.is_dp_rank_0 <;>
        cases hs : env.saveResult <;>
          cases hd : env.dist_is_active <;>
            simp [after_train_epoch, h0, hm, hr, hs, hd]
    · simp [after_train_epoch, h0, hm]
  · intro h0
    simp [after_train_epoch, h0]

/-- Witness for C10: interval 2 never divides by zero, interval 0 always does. -/
theorem modulo_needs_positive_interval_w :
    (0 < shW.interval
     ∧ (after_train_epoch shW 3 envOk).2 ≠ Except.error PyError.zeroDivision)
  ∧ (shZero.interval = 0
     ∧ after_train_epoch shZero 3 envOk = ([], Except.error PyError.zeroDivision)) :=
  ⟨⟨by decide, (modulo_needs_positive_interval shW 3 envOk).1 (by decide)⟩,
   ⟨rfl, (modulo_needs_positive_interval shZero 3 envOk).2 rfl⟩⟩
